import Mathlib

/-
Verification of the AI-enrichment request/response pipeline of the
nutritional-psychiatry dataset repository
(src/backend/core/scripts/ai/openai_api.py).

The Python source is shallowly embedded: decoded JSON objects become
association lists of string keys and JSON values, the stateful retry loop
becomes a recursive function indexed by the remaining attempt budget, and
fallible steps return Except values.  Classes of the repository that are
referenced but whose defining module is not under src (the schema records,
the JSON helper, the template manager) are modelled from the specification
and marked as such in their doc comments.
-/

set_option autoImplicit false

namespace NutriPsych

/-- JSON scalar values as they appear in a decoded model response.
Numbers are modelled as rationals; the pipeline never computes with them,
it only moves them between keys. -/
inductive JVal where
  | num (q : ℚ)
  | str (s : String)
  | jbool (b : Bool)
  | jnull
deriving DecidableEq

/-- A decoded JSON object: ordered association list of key and value, as
produced by json.loads (keys are unique in any real decode; theorems that
need uniqueness take a Nodup hypothesis). -/
abbrev JDict := List (String × JVal)

/-- Keys of a decoded object, in order. -/
def jkeys (m : JDict) : List String := m.map Prod.fst

/-- Python membership test and subscript, `k in m` / `m[k]`, on a decoded
object: the first entry with the given key. -/
def jlookup (m : JDict) (k : String) : Option JVal := List.lookup k m

/- ------------------------------------------------------------------
Completion Client message splitting, openai_api.py lines 128-135.
------------------------------------------------------------------ -/

/-- One element of the `messages` list handed to `complete`: a dict from
which the code reads `message.get("role")` and `message.get("content")`;
either key may be absent. -/
structure Message where
  role : Option String
  content : Option String
deriving DecidableEq

/-- Embeds the body of the message loop of `complete`
(openai_api.py lines 131-135): `if message.get("role") == "system":
instructions = message.get("content") elif message.get("role") == "user":
user_message = message.get("content")`.  The accumulator is the pair
(instructions, user_message). -/
def extractStep (acc : Option String × Option String) (message : Message) :
    Option String × Option String :=
  if message.role == some "system" then (message.content, acc.2)
  else if message.role == some "user" then (acc.1, message.content)
  else acc

/-- Embeds the message loop of `complete` (openai_api.py lines 129-135):
starting from `instructions = None; user_message = None`, every message is
visited in order and plain assignment overwrites, so there is no break. -/
def extractInstrUser (messages : List Message) : Option String × Option String :=
  messages.foldl extractStep (none, none)

/-- Content of the first message carrying the given role, following the
specification words: only the first occurrence of each role is used. -/
def firstRoleContent (messages : List Message) (r : String) : Option String :=
  match messages.find? (fun m => m.role == some r) with
  | some m => m.content
  | none => none

/-- Content of the last message carrying the given role: what the
assignment-without-break loop actually keeps. -/
def lastRoleContent (messages : List Message) (r : String) : Option String :=
  match messages.reverse.find? (fun m => m.role == some r) with
  | some m => m.content
  | none => none

/- ------------------------------------------------------------------
Retry policy, the tenacity decorator at openai_api.py lines 89-93:
retry_if_exception_type((RateLimitError, APITimeoutError,
APIConnectionError)), stop_after_attempt(3),
wait_exponential(multiplier=1, min=2, max=30), and tenacity's default
reraise=False.  tenacity is an external library; its loop is modelled
from its documented semantics, parameterised by exactly the arguments the
source passes.
------------------------------------------------------------------ -/

/-- Failure kinds `complete` can raise: the three transient provider
errors named in retry_if_exception_type, and the ValueError kinds raised
by the status checks at openai_api.py lines 145-155. -/
inductive ApiError where
  | rateLimit
  | apiTimeout
  | apiConnection
  | incompleteMaxTokens
  | incompleteContentFilter
  | unexpectedStatus (s : String)
deriving DecidableEq

/-- Membership in the retry_if_exception_type tuple at
openai_api.py line 90. -/
def retryableError : ApiError → Bool
  | .rateLimit => true
  | .apiTimeout => true
  | .apiConnection => true
  | _ => false

/-- What the retry-wrapped call raises to its caller: either an attempt
exception passed through as-is, or tenacity's RetryError wrapper around
the last attempt (raised on stop with the default reraise=False). -/
inductive RaisedError where
  | raw (e : ApiError)
  | retryError (last : ApiError)
deriving DecidableEq

/-- tenacity wait_exponential(multiplier=1, min=2, max=30) as configured
at openai_api.py line 92: multiplier * 2 ^ attempt, clamped below by min
and above by max (the full tenacity form max(max(0, min), min(result,
max)) with min = 2 collapses to this). -/
def waitExponential (attemptNumber : ℕ) : ℚ :=
  max 2 (min ((2 : ℚ) ^ attemptNumber) 30)

instance {ε α : Type} [DecidableEq ε] [DecidableEq α] : DecidableEq (Except ε α) :=
  fun x y =>
    match x, y with
    | .ok a, .ok b =>
      if h : a = b then isTrue (by rw [h])
      else isFalse (by intro hc; injection hc; contradiction)
    | .error a, .error b =>
      if h : a = b then isTrue (by rw [h])
      else isFalse (by intro hc; injection hc; contradiction)
    | .ok _, .error _ => isFalse (by intro hc; injection hc)
    | .error _, .ok _ => isFalse (by intro hc; injection hc)

/-- Outcome of one pass through the retry wrapper: the value returned or
error raised, the sleeps performed between attempts, and how many
attempts ran. -/
structure RetryTrace where
  outcome : Except RaisedError String
  waits : List ℚ
  attemptsMade : ℕ
deriving DecidableEq

/-- Modelled tenacity loop: `attemptResult n` is what the n-th attempt of
the wrapped `complete` body does (1-indexed).  After a failed attempt the
wrapper retries only when the exception type is in the configured tuple;
stop_after_attempt(3) fires when no budget remains, raising
RetryError(last_attempt); otherwise it sleeps wait_exponential and tries
again. -/
def runRetry (attemptResult : ℕ → Except ApiError String) :
    ℕ → ℕ → RetryTrace
  | attemptNumber, remaining =>
    match attemptResult attemptNumber with
    | .ok s => ⟨.ok s, [], 1⟩
    | .error e =>
      if retryableError e then
        match remaining with
        | 0 => ⟨.error (.retryError e), [], 1⟩
        | r + 1 =>
          let rest := runRetry attemptResult (attemptNumber + 1) r
          ⟨rest.outcome, waitExponential attemptNumber :: rest.waits,
            rest.attemptsMade + 1⟩
      else ⟨.error (.raw e), [], 1⟩

/-- The retry wrapper as configured on `complete`: first attempt number 1,
stop_after_attempt(3) leaves a budget of two further attempts. -/
def retriedComplete (attemptResult : ℕ → Except ApiError String) : RetryTrace :=
  runRetry attemptResult 1 2

/- ------------------------------------------------------------------
Rate limiter, _apply_rate_limiting at openai_api.py lines 80-87.
Time is modelled as a rational clock.  The function reads
time.time(), compares the elapsed interval against rate_limit_delay,
awaits asyncio.sleep for the remainder when too little time has passed,
and only then writes last_request_time.  The await is a cooperative
suspension point: other tasks run during the sleep and the timestamp is
still the old one while this task sleeps.
------------------------------------------------------------------ -/

/-- Clock time at which one call of `_apply_rate_limiting` that entered at
`currentTime`, reading the shared timestamp `lastRequestTime`, finishes
its sleep (equivalently, the time at which its provider request begins):
if the elapsed interval is below the delay it sleeps for the remainder,
otherwise it proceeds immediately (openai_api.py lines 81-85). -/
def rateLimitWake (lastRequestTime currentTime rateLimitDelay : ℚ) : ℚ :=
  if currentTime - lastRequestTime < rateLimitDelay then
    currentTime + (rateLimitDelay - (currentTime - lastRequestTime))
  else currentTime

/-- Two cooperative tasks running `_apply_rate_limiting` against the same
client: task A enters at `tA`; task B enters at `tB` while A is still
suspended inside asyncio.sleep (valid when tA ≤ tB and tB is earlier than
wake time of A), so B reads the same not-yet-updated `last_request_time =
last0` that A read, there being no mutual exclusion around the
check-sleep-update sequence.  Returns the times at which the two provider
requests begin. -/
def concurrentRequestStarts (last0 delay tA tB : ℚ) : ℚ × ℚ :=
  (rateLimitWake last0 tA delay, rateLimitWake last0 tB delay)

/- ------------------------------------------------------------------
Nutrient response reconciliation, predict_nutrients at
openai_api.py lines 252-292.
------------------------------------------------------------------ -/

/-- Metadata test applied to each decoded key (openai_api.py lines 257
and 350): `nutrient.startswith("confidence_") or nutrient == "reasoning"`,
with startswith expressed on the key's character list. -/
def isMetaKey (k : String) : Bool :=
  "confidence_".toList.isPrefixOf k.toList || k == "reasoning"

/-- Substring test on character lists: the needle is a prefix of some
tail of the haystack. -/
def charsInfix (needle hay : List Char) : Bool :=
  hay.tails.any (fun t => needle.isPrefixOf t)

/-- Omega skip test of the plain-field pass (openai_api.py line 260):
`"omega" in nutrient.lower()`, with str.lower modelled as per-character
lowering of the key's characters. -/
def containsOmega (k : String) : Bool :=
  charsInfix "omega".toList (k.toList.map Char.toLower)

/-- The Omega3 record of the schema.  Modelled from the spec:
schema/food_data.py is not under src; the spec says Omega3 holds total_g,
epa_mg, dha_mg, ala_mg and a confidence score, each unset on a fresh
instance. -/
structure Omega3 where
  total_g : Option JVal := none
  epa_mg : Option JVal := none
  dha_mg : Option JVal := none
  ala_mg : Option JVal := none
  confidence : Option JVal := none
deriving DecidableEq

/-- Python `setattr(omega3, component, v)` for the three component names
iterated at openai_api.py line 275. -/
def setOmegaComponent (o : Omega3) (component : String) (v : JVal) : Omega3 :=
  if component = "epa_mg" then { o with epa_mg := some v }
  else if component = "dha_mg" then { o with dha_mg := some v }
  else if component = "ala_mg" then { o with ala_mg := some v }
  else o

/-- Python loop `for omega_key in [...]: if omega_key in predicted:
... break` — value of the first listed key present in the decoded
mapping (openai_api.py lines 269-273 and 286-289). -/
def firstPresent (m : JDict) : List String → Option JVal
  | [] => none
  | k :: ks =>
    match jlookup m k with
    | some v => some v
    | none => firstPresent m ks

/-- One iteration of the component loop at openai_api.py lines 275-284:
try key `omega3_<component>`, else `omega3.<component>`; a hit sets the
component on the accumulating Omega3 and raises the has_omega3 flag. -/
def componentStep (m : JDict) (acc : Omega3 × Bool) (component : String) :
    Omega3 × Bool :=
  match jlookup m ("omega3_" ++ component) with
  | some v => (setOmegaComponent acc.1 component v, true)
  | none =>
    match jlookup m ("omega3." ++ component) with
    | some v => (setOmegaComponent acc.1 component v, true)
    | none => acc

/-- The component loop of openai_api.py lines 275-284 over
["epa_mg", "dha_mg", "ala_mg"]. -/
def omegaComponentPass (m : JDict) (o : Omega3) (hasO : Bool) : Omega3 × Bool :=
  ["epa_mg", "dha_mg", "ala_mg"].foldl (componentStep m) (o, hasO)

/-- The omega-3 section of predict_nutrients (openai_api.py lines
266-292): total from the three-key priority list, the three components,
the confidence priority list, and the final `if has_omega3:
brain_nutrients.omega3 = omega3` guard (none means the substructure is
left absent). -/
def buildOmega3 (predicted_nutrients : JDict) : Option Omega3 :=
  let o0 : Omega3 := {}
  let s1 : Omega3 × Bool :=
    match firstPresent predicted_nutrients
        ["omega3_total_g", "omega3.total_g", "total_g"] with
    | some v => ({ o0 with total_g := some v }, true)
    | none => (o0, false)
  let s2 := omegaComponentPass predicted_nutrients s1.1 s1.2
  let o3 :=
    match firstPresent predicted_nutrients
        ["confidence_omega3", "omega3_confidence", "confidence_omega3_total_g"] with
    | some v => { s2.1 with confidence := some v }
    | none => s2.1
  if s2.2 then some o3 else none

/-- Declared nutrient attributes of a fresh BrainNutrients instance.
Modelled from the spec: schema/food_data.py is not under src; the spec
names choline, zinc and B-vitamins as examples of the known
neuro-relevant nutrients.  Every theorem about the attribute pass is
parametric in this list, so its exact contents only matter to concrete
witnesses. -/
def brainNutrientFields : List String :=
  ["choline_mg", "zinc_mg", "magnesium_mg", "iron_mg", "selenium_mcg",
   "vitamin_b6_mg", "vitamin_b12_mcg", "folate_mcg", "vitamin_d_mcg",
   "tryptophan_mg"]

/-- The plain-field pass of predict_nutrients (openai_api.py lines
256-264): skip metadata keys, skip keys containing "omega", and
`setattr(brain_nutrients, nutrient, value)` only when
`hasattr(brain_nutrients, nutrient)` — i.e. only when the key is a
declared attribute (`decl`).  The attribute state is modelled as a map
from attribute name to its assigned value. -/
def plainStep (decl : List String) (attrs : String → Option JVal)
    (kv : String × JVal) : String → Option JVal :=
  if isMetaKey kv.1 then attrs
  else if containsOmega kv.1 then attrs
  else if kv.1 ∈ decl then Function.update attrs kv.1 (some kv.2)
  else attrs

/-- The loop of openai_api.py lines 256-264, folding `plainStep` over the
decoded items starting from a fresh instance with no attribute values
assigned. -/
def plainNutrientPass (decl : List String) (m : JDict) : String → Option JVal :=
  m.foldl (plainStep decl) (fun _ => none)

/-- The BrainNutrients value assembled by the parsing section of
predict_nutrients: the plain nutrient attributes that were set, and the
optional omega3 substructure. -/
structure BrainNutrients where
  attrs : String → Option JVal
  omega3 : Option Omega3

/-- The whole parsing section of predict_nutrients (openai_api.py lines
253-292) applied to an already decoded mapping. -/
def parsePredictedNutrients (decl : List String) (m : JDict) : BrainNutrients :=
  { attrs := plainNutrientPass decl m, omega3 := buildOmega3 m }

/- ------------------------------------------------------------------
Bioactive compound response reconciliation, predict_bioactive_compounds
at openai_api.py lines 342-364.
------------------------------------------------------------------ -/

/-- The BioactiveCompounds record.  Modelled from the spec:
schema/food_data.py is not under src; the spec says a fresh instance has
an empty compound mapping and an empty parallel confidence mapping. -/
structure BioactiveCompounds where
  compounds : JDict
  confidence : JDict
deriving DecidableEq

/-- Python dict assignment `d[k] = v`: replace the value when the key is
present, append otherwise. -/
def dictSet (m : JDict) (k : String) (v : JVal) : JDict :=
  if (jlookup m k).isSome then
    m.map (fun p => if p.1 == k then (k, v) else p)
  else m ++ [(k, v)]

/-- One iteration of the loop at openai_api.py lines 349-358: skip
metadata keys; copy the compound; copy `confidence_<key>` when that key
exists in the same decoded mapping. -/
def bioStep (predicted : JDict) (acc : BioactiveCompounds)
    (kv : String × JVal) : BioactiveCompounds :=
  if isMetaKey kv.1 then acc
  else
    let compounds := dictSet acc.compounds kv.1 kv.2
    match jlookup predicted ("confidence_" ++ kv.1) with
    | some cv =>
      { compounds := compounds,
        confidence := dictSet acc.confidence ("confidence_" ++ kv.1) cv }
    | none => { compounds := compounds, confidence := acc.confidence }

/-- The reconciliation loop of predict_bioactive_compounds
(openai_api.py lines 347-358) applied to an already decoded mapping. -/
def buildBioactive (predicted : JDict) : BioactiveCompounds :=
  predicted.foldl (bioStep predicted) ⟨[], []⟩

/- ------------------------------------------------------------------
Persistence bridge, save_prediction at openai_api.py lines 168-207.
------------------------------------------------------------------ -/

/-- Data-quality provenance flags of a food record.  Modelled from the
spec: schema/food_data.py is not under src; the spec says the bridge
marks brain-nutrient and impact provenance as AI-generated. -/
structure DataQuality where
  brain_nutrients_source : Option String := none
  impacts_source : Option String := none
deriving DecidableEq

/-- The food record as save_prediction touches it.  Modelled from the
spec: the record fields the bridge sets, plus its data-quality flags. -/
structure FoodRecord where
  brain_nutrients : Option JDict := none
  bioactive_compounds : Option JDict := none
  mental_health_impacts : Option JDict := none
  data_quality : DataQuality := {}
deriving DecidableEq

/-- The persistence collaborator as save_prediction consumes it
(openai_api.py lines 186 and 202).  Each operation can raise (error
message) — the Except error models the Python exception caught at
line 205. -/
structure DbClient where
  get_food_by_id_or_name : String → Except String (Option FoodRecord)
  import_food_from_json : FoodRecord → Except String Unit

/-- The update section of save_prediction (openai_api.py lines
191-199). -/
def updatePrediction (food : FoodRecord) (prediction_type : String)
    (data : JDict) : FoodRecord :=
  if prediction_type = "brain_nutrients" then
    { food with
      brain_nutrients := some data,
      data_quality :=
        { food.data_quality with brain_nutrients_source := some "ai_generated" } }
  else if prediction_type = "bioactive_compounds" then
    { food with bioactive_compounds := some data }
  else if prediction_type = "mental_health_impacts" then
    { food with
      mental_health_impacts := some data,
      data_quality :=
        { food.data_quality with impacts_source := some "ai_generated" } }
  else food

/-- save_prediction (openai_api.py lines 168-207): returns false when no
db client is configured; loads the record, returns false when it is
absent; updates it and writes it back; any exception raised by the load
or the write is caught and converted to false. -/
def savePrediction (db_client : Option DbClient) (food_id : String)
    (prediction_type : String) (data : JDict) : Bool :=
  match db_client with
  | none => false
  | some db =>
    match db.get_food_by_id_or_name food_id with
    | .error _ => false
    | .ok none => false
    | .ok (some food) =>
      match db.import_food_from_json (updatePrediction food prediction_type data) with
      | .error _ => false
      | .ok _ => true

/- ------------------------------------------------------------------
Prediction orchestrators.  In every one of the five orchestrators the
statement `response = await self.complete(...)` stands OUTSIDE the
try/except block (openai_api.py lines 250/252, 340/342, 395/397,
427/429, 474/476), so the completion outcome — including a RaisedError
out of the retry wrapper — is a parameter whose error case the
orchestrator body never handles.  The try block covers only the parsing
section; its exception is the error branch of `parseStep`.  JSONParser
(utils/json_utils.py, not under src) is modelled from the spec: it
returns the decoded structure or the fallback and never raises itself,
but the subsequent field iteration raises when the decode is not a
mapping of the expected shape, which is what the except captures.
------------------------------------------------------------------ -/

/-- Result of predict_nutrients seen by its caller once it returns: a
parsed BrainNutrients, or the error-tagged record of openai_api.py lines
311-314 carrying `_error` and `_raw_response`. -/
inductive NutrientsResult where
  | parsed (bn : BrainNutrients)
  | errorTagged (error : String) (raw_response : String)

/-- predict_nutrients (openai_api.py lines 209-314), with the completion
outcome and the fallible parsing step as parameters. -/
def predictNutrientsOrch (completion : Except RaisedError String)
    (parseStep : String → Except String JDict) (decl : List String) :
    Except RaisedError NutrientsResult :=
  match completion with
  | .error e => .error e
  | .ok response =>
    match parseStep response with
    | .ok predicted => .ok (.parsed (parsePredictedNutrients decl predicted))
    | .error e => .ok (.errorTagged e response)

/-- Result of predict_bioactive_compounds seen by its caller: the typed
record, or the `{"error": ..., "raw_response": ...}` mapping of
openai_api.py line 369. -/
inductive BioResult where
  | parsed (b : BioactiveCompounds)
  | errorTagged (error : String) (raw_response : String)

/-- predict_bioactive_compounds (openai_api.py lines 316-369). -/
def predictBioactiveOrch (completion : Except RaisedError String)
    (parseStep : String → Except String JDict) :
    Except RaisedError BioResult :=
  match completion with
  | .error e => .error e
  | .ok response =>
    match parseStep response with
    | .ok predicted => .ok (.parsed (buildBioactive predicted))
    | .error e => .ok (.errorTagged e response)

/-- Result of predict_mental_health_impacts: the impact list (possibly
empty, after the warning at openai_api.py line 401), or the singleton
error-tagged list of line 408. -/
inductive ImpactsResult where
  | parsed (impacts : List JDict)
  | errorTagged (error : String) (raw_response : String)

/-- predict_mental_health_impacts (openai_api.py lines 371-408). -/
def predictImpactsOrch (completion : Except RaisedError String)
    (parseStep : String → Except String (List JDict)) :
    Except RaisedError ImpactsResult :=
  match completion with
  | .error e => .error e
  | .ok response =>
    match parseStep response with
    | .ok impacts => .ok (.parsed impacts)
    | .error e => .ok (.errorTagged e response)

/-- Result of extract_mechanism: the mechanism mapping (returned even
when required fields are missing — the schema check at openai_api.py
lines 432-434 only logs), or the error-tagged mapping of line 440. -/
inductive MechanismResult where
  | parsed (mechanism : JDict)
  | errorTagged (error : String) (raw_response : String)

/-- extract_mechanism (openai_api.py lines 410-440). -/
def extractMechanismOrch (completion : Except RaisedError String)
    (parseStep : String → Except String JDict) :
    Except RaisedError MechanismResult :=
  match completion with
  | .error e => .error e
  | .ok response =>
    match parseStep response with
    | .ok mechanism => .ok (.parsed mechanism)
    | .error e => .ok (.errorTagged e response)

/-- Result of calibrate_confidence: the calibrated mapping, or the
original data when the calibration came back empty or error-carrying
(openai_api.py lines 481-483), or the error-tagged mapping of
line 490. -/
inductive CalibrationResult where
  | calibrated (d : JDict)
  | originalReturned (d : JDict)
  | errorTagged (error : String) (raw_response : String) (original_data : JDict)

/-- calibrate_confidence (openai_api.py lines 442-490). -/
def calibrateConfidenceOrch (completion : Except RaisedError String)
    (generated_data : JDict) (parseStep : String → Except String JDict) :
    Except RaisedError CalibrationResult :=
  match completion with
  | .error e => .error e
  | .ok response =>
    match parseStep response with
    | .ok calibrated =>
      if calibrated.isEmpty || (jlookup calibrated "error").isSome then
        .ok (.originalReturned generated_data)
      else .ok (.calibrated calibrated)
    | .error e => .ok (.errorTagged e response generated_data)

/- ------------------------------------------------------------------
Specification-side definitions, written from the words of the spec, to
be compared with the embedded code.
------------------------------------------------------------------ -/

/-- Projection used to state that an orchestrator call converted the
failure into a returned value (true) rather than letting the exception
escape to the caller (false). -/
def isCaught {α : Type} : Except RaisedError α → Bool
  | .ok _ => true
  | .error _ => false

/-- Specification-side condition: at least one omega-3 quantity key —
the total under one of its three accepted names, or a component under
one of its two accepted names — is present in the decoded mapping. -/
def anyOmegaQuantityKey (m : JDict) : Bool :=
  (firstPresent m ["omega3_total_g", "omega3.total_g", "total_g"]).isSome
  || ((jlookup m "omega3_epa_mg").isSome || (jlookup m "omega3.epa_mg").isSome)
  || ((jlookup m "omega3_dha_mg").isSome || (jlookup m "omega3.dha_mg").isSome)
  || ((jlookup m "omega3_ala_mg").isSome || (jlookup m "omega3.ala_mg").isSome)

/-- Specification-side compounds mapping: every decoded key not starting
with `confidence_` and not equal to `reasoning`, with its value, in
order. -/
def compoundsOf (rest : JDict) : JDict :=
  rest.filter (fun kv => !(isMetaKey kv.1))

/-- Specification-side confidence mapping: for each compound key (in
order), the entry `confidence_<key>` exactly when that key is present in
the decoded mapping. -/
def confOf (predicted rest : JDict) : JDict :=
  rest.filterMap
    (fun kv =>
      if isMetaKey kv.1 then none
      else
        (jlookup predicted ("confidence_" ++ kv.1)).map
          (fun cv => ("confidence_" ++ kv.1, cv)))

/- ==================================================================
Supporting lemmas
================================================================== -/

lemma foldl_extractStep_eq (ms : List Message) :
    ∀ acc : Option String × Option String,
    ms.foldl extractStep acc =
      ((ms.reverse.find? (fun m => m.role == some "system")).elim
          acc.1 Message.content,
       (ms.reverse.find? (fun m => m.role == some "user")).elim
          acc.2 Message.content) := by
  induction ms with
  | nil => intro acc; simp
  | cons m ms ih =>
    intro acc
    rw [List.foldl_cons, ih (extractStep acc m), List.reverse_cons,
      List.find?_append, List.find?_append]
    cases h1 : (m.role == some "system") <;>
      cases h2 : (m.role == some "user") <;>
        cases hs : List.find? (fun x => x.role == some "system") ms.reverse <;>
          cases hu : List.find? (fun x => x.role == some "user") ms.reverse <;>
            (simp only [extractStep, List.find?, h1, h2, hs, hu,
                Option.or, Option.elim] <;> simp_all)

lemma runRetry_attempts_le (f : ℕ → Except ApiError String) :
    ∀ r n, (runRetry f n r).attemptsMade ≤ r + 1 := by
  intro r
  induction r with
  | zero =>
    intro n
    unfold runRetry
    cases f n with
    | ok s => simp
    | error e => by_cases h : retryableError e = true <;> simp [h]
  | succ r ih =>
    intro n
    unfold runRetry
    cases f n with
    | ok s => simp
    | error e =>
      by_cases h : retryableError e = true
      · simp only [h, if_true]
        have h2 := ih (n + 1)
        show (runRetry f (n + 1) r).attemptsMade + 1 ≤ r + 1 + 1
        omega
      · simp [h]

lemma option_or_none {α : Type} (o : Option α) : o.or none = o := by
  cases o <;> rfl

lemma isSome_false_eq_none {α : Type} (o : Option α) (h : o.isSome = false) :
    o = none := by
  cases o with
  | none => rfl
  | some v => simp at h

lemma setOmegaComponent_epa (o : Omega3) (v : JVal) :
    setOmegaComponent o "epa_mg" v = { o with epa_mg := some v } := rfl

lemma setOmegaComponent_dha (o : Omega3) (v : JVal) :
    setOmegaComponent o "dha_mg" v = { o with dha_mg := some v } := rfl

lemma setOmegaComponent_ala (o : Omega3) (v : JVal) :
    setOmegaComponent o "ala_mg" v = { o with ala_mg := some v } := rfl

lemma key_epa1 : ("omega3_" ++ "epa_mg" : String) = "omega3_epa_mg" := rfl

lemma key_epa2 : ("omega3." ++ "epa_mg" : String) = "omega3.epa_mg" := rfl

lemma key_dha1 : ("omega3_" ++ "dha_mg" : String) = "omega3_dha_mg" := rfl

lemma key_dha2 : ("omega3." ++ "dha_mg" : String) = "omega3.dha_mg" := rfl

lemma key_ala1 : ("omega3_" ++ "ala_mg" : String) = "omega3_ala_mg" := rfl

lemma key_ala2 : ("omega3." ++ "ala_mg" : String) = "omega3.ala_mg" := rfl

lemma omegaComponentPass_eq (m : JDict) (o : Omega3) (hasO : Bool) :
    omegaComponentPass m o hasO =
      componentStep m
        (componentStep m (componentStep m (o, hasO) "epa_mg") "dha_mg")
        "ala_mg" := rfl

lemma omegaComponentPass_fields (m : JDict) (o : Omega3) (hasO : Bool) :
    (omegaComponentPass m o hasO).1 =
      { o with
        epa_mg := (firstPresent m ["omega3_epa_mg", "omega3.epa_mg"]).or o.epa_mg,
        dha_mg := (firstPresent m ["omega3_dha_mg", "omega3.dha_mg"]).or o.dha_mg,
        ala_mg := (firstPresent m ["omega3_ala_mg", "omega3.ala_mg"]).or o.ala_mg } := by
  rw [omegaComponentPass_eq]
  simp only [componentStep, key_epa1, key_epa2, key_dha1, key_dha2, key_ala1,
    key_ala2]
  cases h1 : jlookup m "omega3_epa_mg" <;>
    cases h2 : jlookup m "omega3.epa_mg" <;>
      cases h3 : jlookup m "omega3_dha_mg" <;>
        cases h4 : jlookup m "omega3.dha_mg" <;>
          cases h5 : jlookup m "omega3_ala_mg" <;>
            cases h6 : jlookup m "omega3.ala_mg" <;>
              simp [h1, h2, h3, h4, h5, h6, firstPresent, Option.or,
                setOmegaComponent_epa, setOmegaComponent_dha,
                setOmegaComponent_ala]

lemma omegaComponentPass_flag (m : JDict) (o : Omega3) (hasO : Bool) :
    (omegaComponentPass m o hasO).2 =
      (hasO
        || ((jlookup m "omega3_epa_mg").isSome
            || (jlookup m "omega3.epa_mg").isSome)
        || ((jlookup m "omega3_dha_mg").isSome
            || (jlookup m "omega3.dha_mg").isSome)
        || ((jlookup m "omega3_ala_mg").isSome
            || (jlookup m "omega3.ala_mg").isSome)) := by
  rw [omegaComponentPass_eq]
  simp only [componentStep, key_epa1, key_epa2, key_dha1, key_dha2, key_ala1,
    key_ala2]
  cases h1 : jlookup m "omega3_epa_mg" <;>
    cases h2 : jlookup m "omega3.epa_mg" <;>
      cases h3 : jlookup m "omega3_dha_mg" <;>
        cases h4 : jlookup m "omega3.dha_mg" <;>
          cases h5 : jlookup m "omega3_ala_mg" <;>
            cases h6 : jlookup m "omega3.ala_mg" <;>
              simp [h1, h2, h3, h4, h5, h6]

lemma buildOmega3_eq (m : JDict) :
    buildOmega3 m =
      if anyOmegaQuantityKey m then
        some
          { total_g := firstPresent m ["omega3_total_g", "omega3.total_g", "total_g"],
            epa_mg := firstPresent m ["omega3_epa_mg", "omega3.epa_mg"],
            dha_mg := firstPresent m ["omega3_dha_mg", "omega3.dha_mg"],
            ala_mg := firstPresent m ["omega3_ala_mg", "omega3.ala_mg"],
            confidence :=
              firstPresent m
                ["confidence_omega3", "omega3_confidence",
                 "confidence_omega3_total_g"] }
      else none := by
  cases hT : firstPresent m ["omega3_total_g", "omega3.total_g", "total_g"] <;>
    cases hC : firstPresent m
        ["confidence_omega3", "omega3_confidence",
         "confidence_omega3_total_g"] <;>
      (simp only [buildOmega3, anyOmegaQuantityKey, hT, hC,
          omegaComponentPass_fields, omegaComponentPass_flag];
        simp [option_or_none])

lemma plain_foldl_none (decl : List String) :
    ∀ (m : JDict) (acc : String → Option JVal) (k : String),
    acc k = none → k ∉ decl → m.foldl (plainStep decl) acc k = none := by
  intro m
  induction m with
  | nil => intro acc k h _; exact h
  | cons kv tl ih =>
    intro acc k h hk
    rw [List.foldl_cons]
    refine ih _ k ?_ hk
    unfold plainStep
    by_cases h1 : isMetaKey kv.1 = true
    · simp [h1, h]
    · by_cases h2 : containsOmega kv.1 = true
      · simp [h1, h2, h]
      · by_cases h3 : kv.1 ∈ decl
        · have hne : k ≠ kv.1 := fun he => hk (he ▸ h3)
          simp [h1, h2, h3, Function.update_noteq hne, h]
        · simp [h1, h2, h3, h]

lemma plain_foldl_untouched (decl : List String) :
    ∀ (m : JDict) (acc : String → Option JVal) (k : String),
    k ∉ jkeys m → m.foldl (plainStep decl) acc k = acc k := by
  intro m
  induction m with
  | nil => intro acc k _; rfl
  | cons kv tl ih =>
    intro acc k hk
    simp only [jkeys, List.map_cons, List.mem_cons, not_or] at hk
    rw [List.foldl_cons, ih _ k hk.2]
    unfold plainStep
    by_cases h1 : isMetaKey kv.1 = true
    · simp [h1]
    · by_cases h2 : containsOmega kv.1 = true
      · simp [h1, h2]
      · by_cases h3 : kv.1 ∈ decl
        · simp [h1, h2, h3, Function.update_noteq hk.1]
        · simp [h1, h2, h3]

lemma plain_foldl_hit (decl : List String) :
    ∀ (m : JDict) (acc : String → Option JVal) (k : String) (v : JVal),
    (jkeys m).Nodup → (k, v) ∈ m → isMetaKey k = false →
    containsOmega k = false → k ∈ decl →
    m.foldl (plainStep decl) acc k = some v := by
  intro m
  induction m with
  | nil => intro acc k v _ hmem _ _ _; exact absurd hmem (List.not_mem_nil _)
  | cons kv tl ih =>
    intro acc k v hnd hmem hmeta homega hdecl
    rw [List.foldl_cons]
    rcases List.mem_cons.mp hmem with he | hm
    · cases he.symm
      have hstep : plainStep decl acc (k, v) = Function.update acc k (some v) := by
        unfold plainStep
        simp [hmeta, homega, hdecl]
      have hk : k ∉ jkeys tl := by
        simp only [jkeys, List.map_cons, List.nodup_cons] at hnd
        exact hnd.1
      rw [hstep, plain_foldl_untouched decl tl _ k hk, Function.update_same]
    · have hnd2 : (jkeys tl).Nodup := by
        simp only [jkeys, List.map_cons, List.nodup_cons] at hnd
        exact hnd.2
      exact ih _ k v hnd2 hm hmeta homega hdecl

lemma string_append_cancel (a b c : String) (h : a ++ b = a ++ c) : b = c := by
  have hd : (a ++ b).data = (a ++ c).data := by rw [h]
  rw [String.data_append, String.data_append] at hd
  have hbc := List.append_cancel_left hd
  cases b with
  | mk bd =>
    cases c with
    | mk cd =>
      simp only [String.data] at hbc
      rw [hbc]

lemma jlookup_append (l₁ l₂ : JDict) (k : String) :
    jlookup (l₁ ++ l₂) k = (jlookup l₁ k).or (jlookup l₂ k) := by
  induction l₁ with
  | nil => rfl
  | cons kv tl ih =>
    obtain ⟨k1, v1⟩ := kv
    simp only [jlookup, List.cons_append, List.lookup] at *
    cases h : (k == k1) <;> simp [h, ih]

lemma dictSet_fresh (m : JDict) (k : String) (v : JVal)
    (h : jlookup m k = none) : dictSet m k v = m ++ [(k, v)] := by
  unfold dictSet
  rw [h]
  simp

lemma jkeys_cons_self (kv : String × JVal) (tl : JDict) :
    kv.1 ∈ jkeys (kv :: tl) := by
  simp [jkeys]

lemma jkeys_cons_mem (kv : String × JVal) (tl : JDict) (k : String)
    (h : k ∈ jkeys tl) : k ∈ jkeys (kv :: tl) := by
  simp only [jkeys, List.map_cons, List.mem_cons]
  exact Or.inr h

lemma bio_foldl_spec (predicted : JDict) :
    ∀ (rest : JDict) (acc : BioactiveCompounds),
    (jkeys rest).Nodup →
    (∀ k, k ∈ jkeys rest → jlookup acc.compounds k = none) →
    (∀ k, k ∈ jkeys rest → isMetaKey k = false →
      jlookup acc.confidence ("confidence_" ++ k) = none) →
    rest.foldl (bioStep predicted) acc =
      ⟨acc.compounds ++ compoundsOf rest,
       acc.confidence ++ confOf predicted rest⟩ := by
  intro rest
  induction rest with
  | nil =>
    intro acc _ _ _
    simp only [List.foldl_nil, compoundsOf, confOf, List.filter_nil,
      List.filterMap_nil, List.append_nil]
  | cons kv tl ih =>
    intro acc hnd hc hf
    have hnd2 : (jkeys tl).Nodup := by
      simp only [jkeys, List.map_cons, List.nodup_cons] at hnd
      exact hnd.2
    have hndk : kv.1 ∉ jkeys tl := by
      simp only [jkeys, List.map_cons, List.nodup_cons] at hnd
      exact hnd.1
    rw [List.foldl_cons]
    by_cases hmeta : isMetaKey kv.1 = true
    · have hstep : bioStep predicted acc kv = acc := by
        unfold bioStep
        simp [hmeta]
      rw [hstep, ih acc hnd2 ?_ ?_]
      · simp only [compoundsOf, confOf, List.filter_cons, List.filterMap_cons,
          hmeta]
        simp
      · intro k hk
        exact hc k (jkeys_cons_mem kv tl k hk)
      · intro k hk hkm
        exact hf k (jkeys_cons_mem kv tl k hk) hkm
    · have hmeta2 : isMetaKey kv.1 = false := by
        cases hmm : isMetaKey kv.1
        · rfl
        · exact absurd hmm hmeta
      have hfresh : jlookup acc.compounds kv.1 = none :=
        hc kv.1 (jkeys_cons_self kv tl)
      have hc2 : ∀ k, k ∈ jkeys tl →
          jlookup (acc.compounds ++ [(kv.1, kv.2)]) k = none := by
        intro k hk
        rw [jlookup_append, hc k (jkeys_cons_mem kv tl k hk)]
        have hkne : (k == kv.1) = false := by
          have : k ≠ kv.1 := fun he => hndk (he ▸ hk)
          simp [this]
        simp only [jlookup, List.lookup, hkne, Option.or]
      cases hcv : jlookup predicted ("confidence_" ++ kv.1) with
      | none =>
        have hstep : bioStep predicted acc kv =
            ⟨acc.compounds ++ [(kv.1, kv.2)], acc.confidence⟩ := by
          unfold bioStep
          rw [dictSet_fresh _ _ _ hfresh]
          simp [hmeta, hcv]
        rw [hstep, ih _ hnd2 hc2 ?_]
        · simp only [compoundsOf, confOf, List.filter_cons, List.filterMap_cons,
            hmeta2, hcv]
          simp [List.append_assoc]
        · intro k hk hkm
          exact hf k (jkeys_cons_mem kv tl k hk) hkm
      | some cv =>
        have hcfresh : jlookup acc.confidence ("confidence_" ++ kv.1) = none :=
          hf kv.1 (jkeys_cons_self kv tl) hmeta2
        have hstep : bioStep predicted acc kv =
            ⟨acc.compounds ++ [(kv.1, kv.2)],
             acc.confidence ++ [("confidence_" ++ kv.1, cv)]⟩ := by
          unfold bioStep
          rw [if_neg hmeta]
          simp only [hcv]
          rw [dictSet_fresh _ _ _ hfresh, dictSet_fresh _ _ _ hcfresh]
        rw [hstep, ih _ hnd2 hc2 ?_]
        · simp only [compoundsOf, confOf, List.filter_cons, List.filterMap_cons,
            hmeta2, hcv]
          simp [List.append_assoc]
        · intro k hk hkm
          rw [jlookup_append, hf k (jkeys_cons_mem kv tl k hk) hkm]
          have hkne : ("confidence_" ++ k == "confidence_" ++ kv.1) = false := by
            have hne : k ≠ kv.1 := fun he => hndk (he ▸ hk)
            have : ("confidence_" ++ k) ≠ ("confidence_" ++ kv.1) :=
              fun he => hne (string_append_cancel _ _ _ he)
            simp [this]
          simp only [jlookup, List.lookup, hkne, Option.or]

/- ==================================================================
Claim theorems
================================================================== -/

/-- C2 (counterexample): with two system messages, the first system
message carries "first instructions", but the splitting loop of
`complete` keeps "second instructions" — the last occurrence of the role,
not the first, determines the instructions string. -/
theorem complete_first_occurrence_counterexample :
    firstRoleContent
        [⟨some "system", some "first instructions"⟩,
         ⟨some "system", some "second instructions"⟩] "system" =
      some "first instructions"
    ∧ (extractInstrUser
        [⟨some "system", some "first instructions"⟩,
         ⟨some "system", some "second instructions"⟩]).1 =
      some "second instructions"
    ∧ (some "second instructions" : Option String) ≠ some "first instructions" := by
  refine ⟨rfl, rfl, ?_⟩
  decide

/-- C2 (amended): the instructions string is taken from the LAST message
whose role is "system" and the user string from the LAST message whose
role is "user"; messages with unrelated roles are ignored.  (When at most
one message carries each role, last and first coincide.) -/
theorem complete_splits_messages_last_occurrence (messages : List Message) :
    extractInstrUser messages =
      (lastRoleContent messages "system", lastRoleContent messages "user") := by
  unfold extractInstrUser lastRoleContent
  rw [foldl_extractStep_eq]
  cases hs : List.find? (fun m => m.role == some "system") messages.reverse <;>
    cases hu : List.find? (fun m => m.role == some "user") messages.reverse <;>
      simp [hs, hu, Option.elim]

/-- C3 (amended): when all three permitted attempts fail with transient
failures, the two sleeps between attempts follow
wait_exponential(multiplier=1, min=2, max=30) — each between 2 and 30
units and non-decreasing — at most 3 attempts are ever made, and the
wrapper then raises tenacity's RetryError carrying the last failure (the
default reraise=False wraps the last exception rather than propagating it
unchanged). -/
theorem retry_transient_exhaustion
    (attemptResult : ℕ → Except ApiError String) (e : ℕ → ApiError)
    (hfail : ∀ n, attemptResult n = .error (e n))
    (htrans : ∀ n, retryableError (e n) = true) :
    retriedComplete attemptResult =
      ⟨.error (.retryError (e 3)), [waitExponential 1, waitExponential 2], 3⟩
    ∧ (∀ w ∈ [waitExponential 1, waitExponential 2], 2 ≤ w ∧ w ≤ 30)
    ∧ List.Sorted (· ≤ ·) [waitExponential 1, waitExponential 2]
    ∧ (∀ g : ℕ → Except ApiError String, (retriedComplete g).attemptsMade ≤ 3) := by
  refine ⟨?_, ?_, ?_, ?_⟩
  · simp [retriedComplete, runRetry, hfail 1, hfail 2, hfail 3,
      htrans 1, htrans 2, htrans 3]
  · intro w hw
    simp only [List.mem_cons, List.not_mem_nil, or_false] at hw
    rcases hw with h | h <;> rw [h] <;>
      constructor <;> norm_num [waitExponential, min_def, max_def]
  · rw [List.sorted_cons]
    refine ⟨?_, List.sorted_singleton _⟩
    intro b hb
    simp only [List.mem_singleton] at hb
    rw [hb]
    norm_num [waitExponential, min_def, max_def]
  · intro g
    exact runRetry_attempts_le g 2 1

/-- C3 (witness): all attempts fail with a rate-limit rejection: 3
attempts, sleeps of 2 and 4 units, a RetryError raised. -/
theorem retry_transient_exhaustion_witness :
    retriedComplete (fun _ => Except.error ApiError.rateLimit) =
      ⟨Except.error (RaisedError.retryError ApiError.rateLimit),
        [waitExponential 1, waitExponential 2], 3⟩ :=
  (retry_transient_exhaustion (fun _ => Except.error ApiError.rateLimit)
    (fun _ => ApiError.rateLimit) (fun _ => rfl) (fun _ => rfl)).1

/-- C3 (counterexample): a call whose three attempts all fail with
rate-limit rejections raises RetryError(last_attempt) — tenacity's
default reraise=False — not the last failure itself unchanged, as the
claim states. -/
theorem retry_wraps_last_failure_counterexample :
    (retriedComplete (fun _ => Except.error ApiError.rateLimit)).outcome =
      Except.error (RaisedError.retryError ApiError.rateLimit)
    ∧ (retriedComplete (fun _ => Except.error ApiError.rateLimit)).outcome ≠
      Except.error (RaisedError.raw ApiError.rateLimit) := by
  refine ⟨rfl, ?_⟩
  decide

/-- C4: a first attempt failing with a failure kind outside the
retry_if_exception_type tuple — e.g. the ValueError for an unexpected
response status — makes exactly one attempt, performs no sleep, and the
failure propagates as-is. -/
theorem retry_nonTransient_single_attempt
    (attemptResult : ℕ → Except ApiError String) (e : ApiError)
    (h1 : attemptResult 1 = .error e) (h2 : retryableError e = false) :
    retriedComplete attemptResult = ⟨.error (.raw e), [], 1⟩ := by
  simp [retriedComplete, runRetry, h1, h2]

/-- C4 (witness): an unexpected-status failure on the first attempt is
not retried. -/
theorem retry_nonTransient_single_attempt_witness :
    retriedComplete (fun _ => Except.error (ApiError.unexpectedStatus "failed")) =
      ⟨Except.error (RaisedError.raw (ApiError.unexpectedStatus "failed")), [], 1⟩ :=
  retry_nonTransient_single_attempt _ _ rfl rfl

/-- C8: the check-sleep-update sequence of `_apply_rate_limiting` is not
one atomic step.  With delay 5 and last request at time 0, task A enters
at time 1 and sleeps until 5; task B enters at time 2 — a valid moment,
earlier than A's wake time, so B reads the still-unupdated timestamp 0 —
and also sleeps until 5: both provider requests begin at time 5, a gap of
0, though the configured delay 5 is positive.  This evaluates the code at
the failing schedule; the spec requires the two requests never to begin
less than the delay apart. -/
theorem rateLimiter_concurrent_under_spacing :
    (1 : ℚ) ≤ 2
    ∧ (2 : ℚ) < rateLimitWake 0 1 5
    ∧ concurrentRequestStarts 0 5 1 2 = (5, 5)
    ∧ (concurrentRequestStarts 0 5 1 2).2 - (concurrentRequestStarts 0 5 1 2).1 = 0
    ∧ (0 : ℚ) < 5 := by
  refine ⟨by norm_num, ?_, ?_, ?_, by norm_num⟩ <;>
    norm_num [rateLimitWake, concurrentRequestStarts]

/-- C9: save_prediction never raises — it is a total boolean-valued
operation: it returns false when no persistence collaborator is
configured, when the load raises, when the food id resolves to no record,
and when the write-back raises; and it returns true exactly when a
collaborator is configured, the record was found, and the full updated
record was written back successfully. -/
theorem savePrediction_fails_soft
    (db : Option DbClient) (food_id prediction_type : String) (data : JDict) :
    (db = none → savePrediction db food_id prediction_type data = false)
    ∧ (∀ c msg, db = some c →
        c.get_food_by_id_or_name food_id = .error msg →
        savePrediction db food_id prediction_type data = false)
    ∧ (∀ c, db = some c →
        c.get_food_by_id_or_name food_id = .ok none →
        savePrediction db food_id prediction_type data = false)
    ∧ (∀ c food msg, db = some c →
        c.get_food_by_id_or_name food_id = .ok (some food) →
        c.import_food_from_json (updatePrediction food prediction_type data) =
          .error msg →
        savePrediction db food_id prediction_type data = false)
    ∧ (savePrediction db food_id prediction_type data = true ↔
        ∃ c food, db = some c
          ∧ c.get_food_by_id_or_name food_id = .ok (some food)
          ∧ c.import_food_from_json (updatePrediction food prediction_type data) =
              .ok ()) := by
  refine ⟨?_, ?_, ?_, ?_, ?_⟩
  · intro h; rw [h]; rfl
  · intro c msg hdb hget
    rw [hdb]
    simp [savePrediction, hget]
  · intro c hdb hget
    rw [hdb]
    simp [savePrediction, hget]
  · intro c food msg hdb hget himp
    rw [hdb]
    simp [savePrediction, hget, himp]
  · constructor
    · intro h
      cases db with
      | none => simp [savePrediction] at h
      | some c =>
        cases hget : c.get_food_by_id_or_name food_id with
        | error msg => simp [savePrediction, hget] at h
        | ok of =>
          cases of with
          | none => simp [savePrediction, hget] at h
          | some food =>
            cases himp : c.import_food_from_json
                (updatePrediction food prediction_type data) with
            | error msg => simp [savePrediction, hget, himp] at h
            | ok u => exact ⟨c, food, rfl, hget, by cases u; exact himp⟩
    · rintro ⟨c, food, hdb, hget, himp⟩
      rw [hdb]
      simp [savePrediction, hget, himp]

/-- C9 (witness): with no persistence collaborator configured the call
returns false. -/
theorem savePrediction_fails_soft_witness :
    savePrediction none "banana" "brain_nutrients" [] = false :=
  (savePrediction_fails_soft none "banana" "brain_nutrients" []).1 rfl

/-- C1 (counterexample): predict_nutrients invoked while the completion
step fails with retry exhaustion (a RetryError out of the wrapper) does
NOT return an error-tagged result: `response = await self.complete(...)`
stands outside the try block, so the exception propagates to the caller. -/
theorem orchestrator_completion_failure_propagates_counterexample :
    isCaught (predictNutrientsOrch
        (Except.error (RaisedError.retryError ApiError.rateLimit))
        (fun _ => Except.ok []) brainNutrientFields) = false := rfl

/-- C1 (amended): each of the five orchestrators catches only the
failures of the parsing section — those are converted into an
error-tagged result carrying the error and the raw response — while a
failure of the completion step itself (including retry exhaustion)
propagates to the caller unhandled, because the completion call stands
outside the try block. -/
theorem orchestrators_catch_parse_failures_only
    (e : RaisedError) (decl : List String) (gen : JDict)
    (parseD : String → Except String JDict)
    (parseL : String → Except String (List JDict)) :
    (predictNutrientsOrch (.error e) parseD decl = .error e
      ∧ predictBioactiveOrch (.error e) parseD = .error e
      ∧ predictImpactsOrch (.error e) parseL = .error e
      ∧ extractMechanismOrch (.error e) parseD = .error e
      ∧ calibrateConfidenceOrch (.error e) gen parseD = .error e)
    ∧ (∀ resp msg, parseD resp = .error msg →
        predictNutrientsOrch (.ok resp) parseD decl = .ok (.errorTagged msg resp)
        ∧ predictBioactiveOrch (.ok resp) parseD = .ok (.errorTagged msg resp)
        ∧ extractMechanismOrch (.ok resp) parseD = .ok (.errorTagged msg resp)
        ∧ calibrateConfidenceOrch (.ok resp) gen parseD =
            .ok (.errorTagged msg resp gen))
    ∧ (∀ resp msg, parseL resp = .error msg →
        predictImpactsOrch (.ok resp) parseL = .ok (.errorTagged msg resp)) := by
  refine ⟨⟨rfl, rfl, rfl, rfl, rfl⟩, ?_, ?_⟩
  · intro resp msg h
    refine ⟨?_, ?_, ?_, ?_⟩ <;>
      simp [predictNutrientsOrch, predictBioactiveOrch, extractMechanismOrch,
        calibrateConfidenceOrch, h]
  · intro resp msg h
    simp [predictImpactsOrch, h]

/-- C1 (witness): with a parse step that always fails with message
"boom", predict_bioactive_compounds on a successful completion "resp"
returns the error-tagged mapping rather than raising. -/
theorem orchestrators_catch_parse_failures_only_witness :
    predictBioactiveOrch (Except.ok "resp") (fun _ => Except.error "boom") =
      Except.ok (BioResult.errorTagged "boom" "resp") :=
  ((orchestrators_catch_parse_failures_only
      (RaisedError.raw ApiError.rateLimit) [] []
      (fun _ => Except.error "boom") (fun _ => Except.error "boom")).2.1
    "resp" "boom" rfl).2.1

/-- C5: omega-3 fields are reconciled by fixed key priority — the total
from `omega3_total_g`, then `omega3.total_g`, then `total_g`; each
component independently from `omega3_<component>` then
`omega3.<component>`; the confidence from `confidence_omega3`, then
`omega3_confidence`, then `confidence_omega3_total_g`; first present
wins in every chain — and the mapping containing exactly
omega3_total_g=5 and omega3_epa_mg=100 yields omega3.total_g=5,
omega3.epa_mg=100, omega3.dha_mg unset, and an attached omega3
substructure (has_omega3 true). -/
theorem predictNutrients_omega3_key_priority (decl : List String) (m : JDict) :
    (((parsePredictedNutrients decl m).omega3).map Omega3.total_g).getD none =
        firstPresent m ["omega3_total_g", "omega3.total_g", "total_g"]
    ∧ (((parsePredictedNutrients decl m).omega3).map Omega3.epa_mg).getD none =
        firstPresent m ["omega3_epa_mg", "omega3.epa_mg"]
    ∧ (((parsePredictedNutrients decl m).omega3).map Omega3.dha_mg).getD none =
        firstPresent m ["omega3_dha_mg", "omega3.dha_mg"]
    ∧ (((parsePredictedNutrients decl m).omega3).map Omega3.ala_mg).getD none =
        firstPresent m ["omega3_ala_mg", "omega3.ala_mg"]
    ∧ (∀ o, (parsePredictedNutrients decl m).omega3 = some o →
        o.confidence =
          firstPresent m
            ["confidence_omega3", "omega3_confidence",
             "confidence_omega3_total_g"])
    ∧ (parsePredictedNutrients decl
          [("omega3_total_g", JVal.num 5), ("omega3_epa_mg", JVal.num 100)]).omega3 =
        some { total_g := some (JVal.num 5), epa_mg := some (JVal.num 100),
               dha_mg := none, ala_mg := none, confidence := none } := by
  have hb : (parsePredictedNutrients decl m).omega3 = buildOmega3 m := rfl
  rw [buildOmega3_eq] at hb
  by_cases hq : anyOmegaQuantityKey m = true
  · rw [if_pos hq] at hb
    rw [hb]
    refine ⟨rfl, rfl, rfl, rfl, ?_, by rfl⟩
    intro o h
    injection h with h2
    rw [← h2]
  · rw [if_neg hq] at hb
    have hq2 : anyOmegaQuantityKey m = false := by
      cases hqq : anyOmegaQuantityKey m
      · rfl
      · exact absurd hqq hq
    unfold anyOmegaQuantityKey at hq2
    simp only [Bool.or_eq_false_iff] at hq2
    obtain ⟨⟨⟨hT, hE1, hE2⟩, hD1, hD2⟩, hA1, hA2⟩ := hq2
    rw [hb]
    refine ⟨?_, ?_, ?_, ?_, ?_, by rfl⟩
    · simp [isSome_false_eq_none _ hT]
    · simp [firstPresent, isSome_false_eq_none _ hE1, isSome_false_eq_none _ hE2]
    · simp [firstPresent, isSome_false_eq_none _ hD1, isSome_false_eq_none _ hD2]
    · simp [firstPresent, isSome_false_eq_none _ hA1, isSome_false_eq_none _ hA2]
    · intro o h
      exact absurd h (by simp)

/-- C5 (witness): a mapping carrying only omega3_total_g=5 and
confidence_omega3=1 attaches an omega3 whose confidence is drawn from
the first confidence key. -/
theorem predictNutrients_omega3_key_priority_witness :
    Omega3.confidence
        { total_g := some (JVal.num 5), epa_mg := none, dha_mg := none,
          ala_mg := none, confidence := some (JVal.num 1) } =
      firstPresent
        [("omega3_total_g", JVal.num 5), ("confidence_omega3", JVal.num 1)]
        ["confidence_omega3", "omega3_confidence",
         "confidence_omega3_total_g"] :=
  ((predictNutrients_omega3_key_priority brainNutrientFields
      [("omega3_total_g", JVal.num 5), ("confidence_omega3", JVal.num 1)]).2.2.2.2.1
    { total_g := some (JVal.num 5), epa_mg := none, dha_mg := none,
      ala_mg := none, confidence := some (JVal.num 1) } (by rfl))

/-- C6 (counterexample): the mapping containing exactly the key
`total_g` has no key containing "omega", yet predict_nutrients attaches
an omega3 substructure with total_g=5 — because `total_g` is the third
accepted name in the total-key priority list. -/
theorem predictNutrients_no_omega_key_counterexample :
    containsOmega "total_g" = false
    ∧ (parsePredictedNutrients brainNutrientFields
          [("total_g", JVal.num 5)]).omega3 =
        some { total_g := some (JVal.num 5), epa_mg := none, dha_mg := none,
               ala_mg := none, confidence := none } := by
  exact ⟨rfl, rfl⟩

/-- C6 (amended): the returned BrainNutrients carries an omega3
substructure if and only if at least one omega-3 quantity key —
omega3_total_g, omega3.total_g, total_g, omega3_epa_mg, omega3.epa_mg,
omega3_dha_mg, omega3.dha_mg, omega3_ala_mg or omega3.ala_mg — is
present in the decoded mapping; the plain key total_g counts although it
does not contain "omega", and a confidence key alone never attaches the
substructure (so an absent substructure is truly absent, never
zero-filled). -/
theorem predictNutrients_omega3_presence (decl : List String) (m : JDict) :
    ((parsePredictedNutrients decl m).omega3).isSome = anyOmegaQuantityKey m := by
  have hb : (parsePredictedNutrients decl m).omega3 = buildOmega3 m := rfl
  rw [hb, buildOmega3_eq]
  cases hq : anyOmegaQuantityKey m <;> simp [hq]

/-- C10: the plain-field pass assigns a decoded key to the returned
record only when the fresh BrainNutrients instance declares an attribute
of that exact name (`hasattr` guard); a key outside the declared
attribute list is silently discarded — the returned record has no value
for it and no error is raised — while a declared, non-metadata,
non-omega key present in the decoded mapping does receive its decoded
value. -/
theorem predictNutrients_unknown_keys_discarded
    (decl : List String) (m : JDict) (k : String) :
    (k ∉ decl → (parsePredictedNutrients decl m).attrs k = none)
    ∧ (∀ v, (jkeys m).Nodup → (k, v) ∈ m → isMetaKey k = false →
        containsOmega k = false → k ∈ decl →
        (parsePredictedNutrients decl m).attrs k = some v) := by
  constructor
  · intro hk
    exact plain_foldl_none decl m (fun _ => none) k rfl hk
  · intro v hnd hmem hmeta homega hdecl
    exact plain_foldl_hit decl m (fun _ => none) k v hnd hmem hmeta homega hdecl

/-- C10 (witness): choline_mg is a declared attribute and receives its
value; unknown_nutrient is not declared and is silently discarded. -/
theorem predictNutrients_unknown_keys_discarded_witness :
    (parsePredictedNutrients brainNutrientFields
        [("choline_mg", JVal.num 3), ("unknown_nutrient", JVal.num 1)]).attrs
        "unknown_nutrient" = none
    ∧ (parsePredictedNutrients brainNutrientFields
        [("choline_mg", JVal.num 3), ("unknown_nutrient", JVal.num 1)]).attrs
        "choline_mg" = some (JVal.num 3) :=
  ⟨(predictNutrients_unknown_keys_discarded brainNutrientFields
      [("choline_mg", JVal.num 3), ("unknown_nutrient", JVal.num 1)]
      "unknown_nutrient").1 (by decide),
   (predictNutrients_unknown_keys_discarded brainNutrientFields
      [("choline_mg", JVal.num 3), ("unknown_nutrient", JVal.num 1)]
      "choline_mg").2 (JVal.num 3) (by decide) (by decide) (by decide)
      (by decide) (by decide)⟩

/-- C7: for a decoded bioactive mapping (keys unique, as in any real
JSON decode), every key not starting with `confidence_` and not equal to
`reasoning` is copied with its value into the compounds mapping, and
`confidence_<key>` is copied into the confidence mapping exactly when
both the compound key and that confidence key are present in the same
decoded mapping — so a confidence entry exists only under a
`confidence_`-prefixed name whose compound entry exists; and the decoded
input {resveratrol: 2.1, confidence_resveratrol: 0.7, reasoning: ...}
yields compounds {resveratrol: 2.1} and confidence
{confidence_resveratrol: 0.7}. -/
theorem predictBioactive_compound_confidence_pairing (predicted : JDict)
    (h : (jkeys predicted).Nodup) :
    buildBioactive predicted =
      ⟨compoundsOf predicted, confOf predicted predicted⟩
    ∧ buildBioactive
        [("resveratrol", JVal.num (21 / 10)),
         ("confidence_resveratrol", JVal.num (7 / 10)),
         ("reasoning", JVal.str "because")] =
      ⟨[("resveratrol", JVal.num (21 / 10))],
       [("confidence_resveratrol", JVal.num (7 / 10))]⟩ := by
  constructor
  · have hspec := bio_foldl_spec predicted predicted ⟨[], []⟩ h
      (fun k _ => rfl) (fun k _ _ => rfl)
    simpa [buildBioactive] using hspec
  · rfl

/-- C7 (witness): the concrete resveratrol decode, with its unique keys,
through the claim theorem. -/
theorem predictBioactive_compound_confidence_pairing_witness :
    buildBioactive
        [("resveratrol", JVal.num (21 / 10)),
         ("confidence_resveratrol", JVal.num (7 / 10)),
         ("reasoning", JVal.str "because")] =
      ⟨[("resveratrol", JVal.num (21 / 10))],
       [("confidence_resveratrol", JVal.num (7 / 10))]⟩ :=
  (predictBioactive_compound_confidence_pairing
      [("resveratrol", JVal.num (21 / 10)),
       ("confidence_resveratrol", JVal.num (7 / 10)),
       ("reasoning", JVal.str "because")] (by decide)).2

end NutriPsych
